import Mathlib

/-
  Verification development for the W2V2Distil training module (train.py) of
  the CompressW2V2 repository: a shallow embedding of the configuration
  resolver, the loss composer (calculate_loss) and the Lightning step
  functions, with theorems about the behaviour the specification describes.

  Floating-point library primitives (cosine similarity, log-sigmoid,
  log-softmax, the CTC loss kernel and the external CTC sequence converter)
  are abstracted as parameters in a `Kernels` bundle: every claim settled
  here is independent of their numerical values, while the surrounding
  control flow, tensor bookkeeping and arithmetic composition are embedded
  exactly from the source.
-/

deriving instance DecidableEq for Except

namespace W2V2Distil

/-- The fixed 32-symbol CTC alphabet, embedded entry for entry from the
`char_dict` literal in `W2V2Distil.__init__` (train.py lines 41-45). -/
def char_dict : List (String × Nat) :=
  [("<s>", 0), ("<pad>", 1), ("</s>", 2), ("<unk>", 3), (" ", 4), ("E", 5),
   ("T", 6), ("A", 7), ("O", 8), ("N", 9), ("I", 10), ("H", 11), ("S", 12),
   ("R", 13), ("D", 14), ("L", 15), ("U", 16), ("M", 17), ("W", 18), ("C", 19),
   ("F", 20), ("G", 21), ("Y", 22), ("P", 23), ("B", 24), ("V", 25), ("K", 26),
   ((Char.ofNat 39).toString, 27), ("X", 28), ("J", 29), ("Q", 30), ("Z", 31)]

/-- Python dict lookup on an association list: first binding of the key wins,
`none` models a KeyError. -/
def dictGet {α : Type} : List (String × α) → String → Option α
  | [], _ => none
  | (k, v) :: rest, s => if k = s then some v else dictGet rest s

/-- The per-character lookup `self.char_dict[char]` (train.py line 239): the
character is a length-one string key of the dict. -/
def lookupChar (c : Char) : Option Nat :=
  dictGet char_dict c.toString

/-- Token indices of one label, `[self.char_dict[char] for char in label]`
(train.py line 239); the error carries the first character whose lookup
raises KeyError. -/
def label_tokens : List Char → Except Char (List Nat)
  | [] => Except.ok []
  | c :: cs =>
    match lookupChar c with
    | none => Except.error c
    | some n => (label_tokens cs).map (fun ns => n :: ns)

/-- Ground-truth token lists for a batch of labels,
`[... for label in labels]` (train.py line 239). -/
def gt_tokens : List String → Except Char (List (List Nat))
  | [] => Except.ok []
  | l :: ls =>
    match label_tokens l.toList with
    | Except.error c => Except.error c
    | Except.ok ts => (gt_tokens ls).map (fun tss => ts :: tss)

/-- Length of the concatenated CTC target `torch.cat(gt_tokens)` (train.py
line 240), `none` when target construction raises. -/
def gtTargetLen (labels : List String) : Option Nat :=
  match gt_tokens labels with
  | Except.ok toks => some toks.flatten.length
  | Except.error _ => none

/-- Whether batch target construction succeeded. -/
def gtOk (r : Except Char (List (List Nat))) : Bool :=
  match r with
  | Except.ok _ => true
  | Except.error _ => false

/-- Whether batch target construction raised a KeyError on a character that
is outside the alphabet. -/
def gtBadCharError (r : Except Char (List (List Nat))) : Bool :=
  match r with
  | Except.ok _ => false
  | Except.error c => (lookupChar c).isNone

/-! ## Tensors and numeric kernels -/

/-- A rank-3 tensor (dimension sizes plus an index function), as used for the
student primary output `x` (time x batch x vocab) and the raw teacher layer
representations (time x batch x dim). Rational entries stand for the float
entries of the source. -/
structure Tensor3 where
  d1 : Nat
  d2 : Nat
  d3 : Nat
  data : Nat → Nat → Nat → ℚ

/-- A rank-4 tensor (batch x layers x time x dim), the shape of the student
projections and of the stacked selected teacher hiddens. -/
structure Tensor4 where
  nb : Nat
  nl : Nat
  nt : Nat
  nd : Nat
  data : Nat → Nat → Nat → Nat → ℚ

/-- Student forward output: the fields of the result dict that
`calculate_loss` and the steps read (train.py lines 118-129, 211, 235). -/
structure StudentOut where
  projections : Tensor4
  x : Tensor3

/-- Teacher forward output: per-layer representations (indexed family: the
first component of each `layer_results` entry, a time x batch x dim tensor)
and the encoder output `x` (train.py lines 109-116, 204-207, 243). -/
structure TeacherOut where
  layerResults : Nat → Tensor3
  x : Tensor3

/-- The floating-point library primitives that `calculate_loss` calls, kept
abstract: `F.cosine_similarity` along the last dimension (given the two
d-indexed slices and the dimension size), `F.logsigmoid`, `log_softmax`,
`F.ctc_loss` (log-probs, flat target, input lengths, target lengths) and the
external `CTCSequenceConverter` collaborator. Every theorem below holds for
all values of these parameters. -/
structure Kernels where
  cosSim : (Nat → ℚ) → (Nat → ℚ) → Nat → ℚ
  logsig : ℚ → ℚ
  logSoftmax : Tensor3 → Tensor3
  ctcLoss : Tensor3 → List Nat → List Nat → List Nat → ℚ
  ctcConvert : List Nat → List Nat

/-- Sum of `f` over `0, ..., n-1`. -/
def qSum (n : Nat) (f : Nat → ℚ) : ℚ :=
  ((List.range n).map f).sum

/-- `x.transpose(0, 1)` on a rank-3 tensor. -/
def transpose01 (x : Tensor3) : Tensor3 :=
  { d1 := x.d2, d2 := x.d1, d3 := x.d3, data := fun a b c => x.data b a c }

/-- `torch.argmax` along the last dimension: index of the greatest of
`f 0, ..., f (n-1)` (first index on ties). -/
def argmaxIdx (n : Nat) (f : Nat → ℚ) : Nat :=
  (List.range n).foldl (fun best i => if f best < f i then i else best) 0

/-- Stacking the selected, transposed teacher layers (train.py lines
204-209): `teacher_hiddens = torch.stack([lr[i][0].transpose(0, 1) for i in
pred_layer_id], dim=1)`, a batch x layers x time x dim tensor. -/
def selectTeacherHiddens (tr : TeacherOut) (pred_layer_id : List Nat) : Tensor4 :=
  let first := tr.layerResults (pred_layer_id.getD 0 0)
  { nb := first.d2, nl := pred_layer_id.length, nt := first.d1, nd := first.d3,
    data := fun b l t d => (tr.layerResults (pred_layer_id.getD l 0)).data t b d }

/-- One entry of `F.l1_loss(proj, target, reduction="none")` (train.py
line 214). -/
def recElem (proj target : Tensor4) (b l t d : Nat) : ℚ :=
  |proj.data b l t d - target.data b l t d|

/-- One entry of `rec_loss.mean((0, 2, 3))` (train.py line 216): the layer-`l`
mean of the elementwise L1 loss over batch, time and dim. -/
def recLayerLossAt (proj target : Tensor4) (l : Nat) : ℚ :=
  qSum proj.nb (fun b => qSum proj.nt (fun t => qSum proj.nd (fun d =>
    recElem proj target b l t d))) / ((proj.nb * proj.nt * proj.nd : Nat) : ℚ)

/-- The detached per-layer regression vector `rec_layer_loss`
(train.py lines 215-216), one mean per predicted layer. -/
def rec_layer_loss (proj target : Tensor4) : List ℚ :=
  (List.range proj.nl).map (recLayerLossAt proj target)

/-- The regression scalar `rec_loss.mean()` (train.py line 218): the mean of
the elementwise L1 loss over every dimension. -/
def rec_loss (proj target : Tensor4) : ℚ :=
  qSum proj.nb (fun b => qSum proj.nl (fun l => qSum proj.nt (fun t =>
    qSum proj.nd (fun d => recElem proj target b l t d)))) /
    ((proj.nb * proj.nl * proj.nt * proj.nd : Nat) : ℚ)

/-- One entry of `-F.logsigmoid(F.cosine_similarity(proj, target, dim=-1))`
(train.py line 221). -/
def simElem (K : Kernels) (proj target : Tensor4) (b l t : Nat) : ℚ :=
  -(K.logsig (K.cosSim (fun d => proj.data b l t d)
    (fun d => target.data b l t d) proj.nd))

/-- One entry of `sim_loss.mean((0, 2))` (train.py line 223). -/
def simLayerLossAt (K : Kernels) (proj target : Tensor4) (l : Nat) : ℚ :=
  qSum proj.nb (fun b => qSum proj.nt (fun t => simElem K proj target b l t)) /
    ((proj.nb * proj.nt : Nat) : ℚ)

/-- The detached per-layer cosine vector `sim_layer_loss` (train.py lines
222-223). -/
def sim_layer_loss (K : Kernels) (proj target : Tensor4) : List ℚ :=
  (List.range proj.nl).map (simLayerLossAt K proj target)

/-- The cosine scalar `sim_loss.mean()` (train.py line 224). -/
def sim_loss (K : Kernels) (proj target : Tensor4) : ℚ :=
  qSum proj.nb (fun b => qSum proj.nl (fun l => qSum proj.nt (fun t =>
    simElem K proj target b l t))) / ((proj.nb * proj.nl * proj.nt : Nat) : ℚ)

/-! ## The loss composer `calculate_loss` -/

/-- The fields of the `train` section of the yaml config that the embedded
functions read (`self.yaml_cfg['train'][...]`). `warmup_frac` embeds the
`warmup_ratio` entry. -/
structure TrainCfg where
  cosine_weight : ℚ
  use_gt_for_ctc : Bool
  monitor_losses : Bool
  learning_rate : String
  gpus : Nat
  num_epochs : Nat
  accumulate_grad_batches : Nat
  warmup_frac : ℚ
  batch_size : Nat
deriving DecidableEq

/-- The Python exceptions the embedded code can raise. -/
inductive Err where
  /-- `torch.add(rec_layer_loss, None)` when the cosine term is disabled
  (train.py lines 227, 231). -/
  | typeErrorAddNone : Err
  /-- `losses.append(ctc_loss)` on a `torch.Tensor`, which has no `append`
  method (train.py line 256). -/
  | attributeErrorTensorAppend : Err
  /-- `self.char_dict[char]` on a character outside the alphabet
  (train.py line 239). -/
  | keyError : Char → Err
deriving DecidableEq

/-- Events recording which side computations a call performed; used to state
that the task-specific branches are gated and never entered in task-agnostic
mode. -/
inductive Ev where
  | cosineComputed : Ev
  | ctcBranchEntered : Ev
  | ctcTargetFromGt : Ev
  | ctcTargetFromTeacher : Ev
  | ctcLossComputed : ℚ → Ev
  | decodeCalled : Ev
  | metricAddCalled : Ev
deriving DecidableEq

/-- Events that only the task-specific (`not task_agnostic`) branches can
emit: everything except the cosine computation. -/
def taskSpecificEv : Ev → Bool
  | Ev.cosineComputed => false
  | _ => true

/-- The CTC part of `calculate_loss` (train.py lines 233-256), reached only
when `task_agnostic` is false: builds the log-softmax input, the target token
sequence (from ground truth or from teacher argmax pseudo-labels), the
length vectors and the CTC loss, then executes `losses.append(ctc_loss)`;
`losses` is a `torch.Tensor` (the result of `torch.add`), which has no
`append` method, so this line raises AttributeError. -/
def ctcSection (K : Kernels) (cfg : TrainCfg) (sr : StudentOut) (tr : TeacherOut)
    (labels : List String) (evs : List Ev) :
    List Ev × Except Err (ℚ × List ℚ) :=
  let evs := evs ++ [Ev.ctcBranchEntered]
  let ctcInput := K.logSoftmax sr.x
  if cfg.use_gt_for_ctc then
    match gt_tokens labels with
    | Except.error c => (evs ++ [Ev.ctcTargetFromGt], Except.error (Err.keyError c))
    | Except.ok toks =>
      let tgt := toks.flatten
      let target_lengths := toks.map List.length
      let input_lengths := List.replicate ctcInput.d2 ctcInput.d1
      let ctc := K.ctcLoss ctcInput tgt input_lengths target_lengths
      (evs ++ [Ev.ctcTargetFromGt, Ev.ctcLossComputed ctc],
        Except.error Err.attributeErrorTensorAppend)
  else
    let logits := transpose01 tr.x
    let predicted_ids := (List.range logits.d1).map (fun b =>
      (List.range logits.d2).map (fun t => argmaxIdx logits.d3 (fun v => logits.data b t v)))
    let fused := predicted_ids.map K.ctcConvert
    let tgt := fused.flatten
    let target_lengths := fused.map List.length
    let ctc := K.ctcLoss ctcInput tgt (List.replicate ctcInput.d2 ctcInput.d1) target_lengths
    (evs ++ [Ev.ctcTargetFromTeacher, Ev.ctcLossComputed ctc],
      Except.error Err.attributeErrorTensorAppend)

/-- `W2V2Distil.calculate_loss` (train.py lines 202-258). Returns the emitted
events together with either `(total_loss, losses)` or the exception the call
raises. The cosine branch runs only when the configured weight is positive;
with the weight at zero `sim_layer_loss` is `None` and the logging sum
`torch.add(rec_layer_loss, sim_layer_loss)` raises TypeError. -/
def calculate_loss (K : Kernels) (cfg : TrainCfg) (pred_layer_id : List Nat)
    (task_agnostic : Bool) (sr : StudentOut) (tr : TeacherOut)
    (labels : List String) : List Ev × Except Err (ℚ × List ℚ) :=
  let target := selectTeacherHiddens tr pred_layer_id
  let proj := sr.projections
  let recLayer := rec_layer_loss proj target
  let recL := rec_loss proj target
  let simL : ℚ := if 0 < cfg.cosine_weight then sim_loss K proj target else 0
  let simLayer : Option (List ℚ) :=
    if 0 < cfg.cosine_weight then some (sim_layer_loss K proj target) else none
  let evs : List Ev := if 0 < cfg.cosine_weight then [Ev.cosineComputed] else []
  let total_loss := recL + cfg.cosine_weight * simL
  match simLayer with
  | none => (evs, Except.error Err.typeErrorAddNone)
  | some sl =>
    let losses := List.zipWith (fun a b => a + b) recLayer sl
    if task_agnostic then (evs, Except.ok (total_loss, losses))
    else ctcSection K cfg sr tr labels evs

/-- The scalar the source assigns to `total_loss` on line 229:
`rec_loss + cosine_weight * sim_loss` with `sim_loss = 0` when the cosine
term is disabled (train.py lines 220-229). -/
def total_loss_val (K : Kernels) (cfg : TrainCfg) (pred_layer_id : List Nat)
    (sr : StudentOut) (tr : TeacherOut) : ℚ :=
  let target := selectTeacherHiddens tr pred_layer_id
  let proj := sr.projections
  rec_loss proj target + cfg.cosine_weight *
    (if 0 < cfg.cosine_weight then sim_loss K proj target else 0)

/-! ## The Lightning step functions -/

/-- A Python numeric value as the steps handle it: a zero-dimensional scalar
tensor or a one-dimensional tensor. -/
inductive PyNum where
  | scalar : ℚ → PyNum
  | vector : List ℚ → PyNum
deriving DecidableEq

/-- Python `+` on tensors with broadcasting between a scalar and a
one-dimensional tensor. -/
def pyAdd : PyNum → PyNum → PyNum
  | PyNum.scalar a, PyNum.scalar b => PyNum.scalar (a + b)
  | PyNum.scalar a, PyNum.vector v => PyNum.vector (v.map (fun x => a + x))
  | PyNum.vector v, PyNum.scalar b => PyNum.vector (v.map (fun x => x + b))
  | PyNum.vector v, PyNum.vector w => PyNum.vector (List.zipWith (fun a b => a + b) v w)

/-- Python `sum(t)` over the pair `t = (total_loss, losses)` that
`calculate_loss` returns: `0 + total_loss + losses`, which broadcasts the
scalar over the per-layer tensor and yields a one-dimensional tensor. -/
def pyTupleSum (total : ℚ) (losses : List ℚ) : PyNum :=
  pyAdd (pyAdd (PyNum.scalar 0) (PyNum.scalar total)) (PyNum.vector losses)

/-- `W2V2Distil.training_step` (train.py lines 133-145): unpacks
`loss, losses = self.calculate_loss(...)` and returns the scalar total loss
(exceptions propagate). -/
def training_step (K : Kernels) (cfg : TrainCfg) (pred_layer_id : List Nat)
    (task_agnostic : Bool) (sr : StudentOut) (tr : TeacherOut)
    (labels : List String) : List Ev × Except Err ℚ :=
  match calculate_loss K cfg pred_layer_id task_agnostic sr tr labels with
  | (evs, Except.error e) => (evs, Except.error e)
  | (evs, Except.ok (loss, _)) => (evs, Except.ok loss)

/-- `W2V2Distil.validation_step` (train.py lines 147-164): unpacks the loss
pair, then in task-specific mode decodes the student argmax ids and feeds
predictions and references to the WER/CER metric accumulators, and returns
the scalar loss it logs as `v_loss`. -/
def validation_step (K : Kernels) (cfg : TrainCfg) (pred_layer_id : List Nat)
    (task_agnostic : Bool) (sr : StudentOut) (tr : TeacherOut)
    (labels : List String) : List Ev × Except Err ℚ :=
  match calculate_loss K cfg pred_layer_id task_agnostic sr tr labels with
  | (evs, Except.error e) => (evs, Except.error e)
  | (evs, Except.ok (loss, _)) =>
    if task_agnostic then (evs, Except.ok loss)
    else (evs ++ [Ev.decodeCalled, Ev.metricAddCalled], Except.ok loss)

/-- `W2V2Distil.test_step` (train.py lines 174-192): binds the whole pair
`losses = self.calculate_loss(...)` without unpacking it, computes
`loss = sum(losses)` over that pair — broadcasting the scalar total over the
per-layer tensor — decodes and accumulates metrics in task-specific mode,
and logs and returns that `loss` as `test_loss`. -/
def test_step (K : Kernels) (cfg : TrainCfg) (pred_layer_id : List Nat)
    (task_agnostic : Bool) (sr : StudentOut) (tr : TeacherOut)
    (labels : List String) : List Ev × Except Err PyNum :=
  match calculate_loss K cfg pred_layer_id task_agnostic sr tr labels with
  | (evs, Except.error e) => (evs, Except.error e)
  | (evs, Except.ok (total, losses)) =>
    let loss := pyTupleSum total losses
    if task_agnostic then (evs, Except.ok loss)
    else (evs ++ [Ev.decodeCalled, Ev.metricAddCalled], Except.ok loss)

/-! ## Config resolution (`__init__` lines 47-72 and `update_student_config`) -/

/-- A config attribute value (int, rational, bool, string or list of ints). -/
inductive PyV where
  | n : Nat → PyV
  | q : ℚ → PyV
  | b : Bool → PyV
  | s : String → PyV
  | ns : List Nat → PyV
deriving DecidableEq

/-- A student config object as a mapping from attribute names to values;
`none` means the attribute is unset. -/
def AttrMap : Type := String → Option PyV

/-- The empty attribute mapping. -/
def emptyAttrMap : AttrMap := fun _ => none

/-- `setattr(obj, k, v)`. -/
def setAttr (m : AttrMap) (k : String) (v : PyV) : AttrMap :=
  fun s => if s = k then some v else m s

/-- The teacher-derived overlay (train.py lines 53-57): for every key of the
teacher config that appears in the student schema
(`student_config._get_all_attributes()`), copy the teacher's value onto the
student config. -/
def copyTeacherAttrs (schema : List String) (teacherCfg : List (String × PyV))
    (base : AttrMap) : AttrMap :=
  teacherCfg.foldl (fun acc kv => if kv.fst ∈ schema then setAttr acc kv.fst kv.snd else acc)
    base

/-- `W2V2Distil.update_student_config` (train.py lines 292-310): reads the
nine required keys of the distiller override mapping in source order —
raising `KeyError: <key>` at the first missing one — assigns them onto the
student config (`tr_layer_index` lands on `tr_layer_floor`,
`pred_head_inter_dim`/`pred_head_final_dim` on
`proj_head_inter_dim`/`proj_head_final_dim`), and finally sets
`teacher_task_agnostic` from the teacher loader's flag. -/
def update_student_config (sc : AttrMap) (cfg : List (String × PyV))
    (task_agnostic : Bool) : Except String AttrMap :=
  match dictGet cfg "encoder_layers" with
  | none => Except.error ("KeyError: " ++ "encoder_layers")
  | some v1 =>
  match dictGet cfg "enable_tr_layer" with
  | none => Except.error ("KeyError: " ++ "enable_tr_layer")
  | some v2 =>
  match dictGet cfg "type_of_tr_layer" with
  | none => Except.error ("KeyError: " ++ "type_of_tr_layer")
  | some v3 =>
  match dictGet cfg "tr_layer_index" with
  | none => Except.error ("KeyError: " ++ "tr_layer_index")
  | some v4 =>
  match dictGet cfg "init_conv_layers" with
  | none => Except.error ("KeyError: " ++ "init_conv_layers")
  | some v5 =>
  match dictGet cfg "init_encoder_layers" with
  | none => Except.error ("KeyError: " ++ "init_encoder_layers")
  | some v6 =>
  match dictGet cfg "pred_head_inter_dim" with
  | none => Except.error ("KeyError: " ++ "pred_head_inter_dim")
  | some v7 =>
  match dictGet cfg "pred_head_final_dim" with
  | none => Except.error ("KeyError: " ++ "pred_head_final_dim")
  | some v8 =>
  match dictGet cfg "pred_layer_id" with
  | none => Except.error ("KeyError: " ++ "pred_layer_id")
  | some v9 =>
    Except.ok (setAttr (setAttr (setAttr (setAttr (setAttr (setAttr (setAttr
      (setAttr (setAttr (setAttr sc "encoder_layers" v1) "enable_tr_layer" v2)
      "type_of_tr_layer" v3) "tr_layer_floor" v4) "init_conv_layers" v5)
      "init_encoder_layers" v6) "proj_head_inter_dim" v7) "proj_head_final_dim" v8)
      "pred_layer_id" v9) "teacher_task_agnostic" (PyV.b task_agnostic))

/-- The keys `update_student_config` requires of the distiller override
mapping, in the order it reads them. -/
def requiredDistillerKeys : List String :=
  ["encoder_layers", "enable_tr_layer", "type_of_tr_layer", "tr_layer_index",
   "init_conv_layers", "init_encoder_layers", "pred_head_inter_dim",
   "pred_head_final_dim", "pred_layer_id"]

/-- The first required distiller key the override mapping omits, if any. -/
def firstMissingKey (cfg : List (String × PyV)) : Option String :=
  requiredDistillerKeys.find? (fun k => (dictGet cfg k).isNone)

/-- The full resolution of the student config (train.py lines 53-63):
teacher-derived copy first, explicit overrides second. -/
def resolveStudentConfig (schema : List String) (teacherCfg : List (String × PyV))
    (base : AttrMap) (distiller : List (String × PyV)) (task_agnostic : Bool) :
    Except String AttrMap :=
  update_student_config (copyTeacherAttrs schema teacherCfg base) distiller task_agnostic

/-- The yaml config sections the embedded functions read. -/
structure YamlCfg where
  distiller : List (String × PyV)
  train : TrainCfg

/-- The state `__init__` has built when it returns: the resolved student
config and the student model constructed from it. -/
structure InitState where
  studentConfig : AttrMap
  studentConstructed : Bool
  taskAgnostic : Bool

/-- `W2V2Distil.__init__` (train.py lines 28-103) after the teacher model is
loaded: resolves the student config (raising on a missing distiller key) and
only then constructs the student model. The learning-rate expression of the
train section is never read here. -/
def init_model (teacherCfg : List (String × PyV)) (task_agnostic : Bool)
    (schema : List String) (base : AttrMap) (cfg : YamlCfg) :
    Except String InitState :=
  match update_student_config (copyTeacherAttrs schema teacherCfg base)
      cfg.distiller task_agnostic with
  | Except.error e => Except.error e
  | Except.ok sc =>
    Except.ok { studentConfig := sc, studentConstructed := true,
                taskAgnostic := task_agnostic }

/-- What `configure_optimizers` builds before returning. -/
structure OptSetup where
  lr : ℚ
  numTrainingSteps : Nat
  numWarmupSteps : Int
deriving DecidableEq

/-- `W2V2Distil.configure_optimizers` (train.py lines 260-280): the very
first statement evaluates the learning-rate expression string
(`eval(self.yaml_cfg['train']['learning_rate'])`, abstracted as the
`evalExpr` parameter, `none` = the expression fails to evaluate); only then
are the schedule step counts derived. -/
def configure_optimizers (evalExpr : String → Option ℚ) (tCfg : TrainCfg)
    (numTrainBatches : Nat) : Except String OptSetup :=
  match evalExpr tCfg.learning_rate with
  | none => Except.error ("eval failed: " ++ tCfg.learning_rate)
  | some lr =>
    let train_batches := numTrainBatches / tCfg.gpus
    let num_training_steps := tCfg.num_epochs * train_batches / tCfg.accumulate_grad_batches
    let num_warmup_steps := Int.floor ((num_training_steps : ℚ) * tCfg.warmup_frac)
    Except.ok { lr := lr, numTrainingSteps := num_training_steps,
                numWarmupSteps := num_warmup_steps }

/-! ## Concrete fixtures for witnesses and counterexamples -/

/-- A train config with the cosine term disabled (`cosine_weight: 0`). -/
def cfg_w0 : TrainCfg :=
  { cosine_weight := 0, use_gt_for_ctc := true, monitor_losses := true,
    learning_rate := "1e-4", gpus := 1, num_epochs := 1,
    accumulate_grad_batches := 1, warmup_frac := 0, batch_size := 2 }

/-- The same config with the cosine term enabled at weight 1. -/
def cfg_w1 : TrainCfg := { cfg_w0 with cosine_weight := 1 }

/-- A concrete kernel instance: cosine similarity constantly 1, log-sigmoid
the identity, log-softmax the identity, CTC loss constantly 0. -/
def K0 : Kernels :=
  { cosSim := fun _ _ _ => 1, logsig := fun x => x, logSoftmax := fun t => t,
    ctcLoss := fun _ _ _ _ => 0, ctcConvert := fun _ => [] }

/-- A 1 x 1 x 1 tensor holding 1. -/
def t3_one : Tensor3 := { d1 := 1, d2 := 1, d3 := 1, data := fun _ _ _ => 1 }

/-- Student output with two predicted layers and constant projections 3. -/
def sr_ex : StudentOut :=
  { projections := { nb := 1, nl := 2, nt := 1, nd := 1, data := fun _ _ _ _ => 3 },
    x := t3_one }

/-- Student output with three predicted layers and constant projections 3. -/
def sr_ex3 : StudentOut :=
  { projections := { nb := 1, nl := 3, nt := 1, nd := 1, data := fun _ _ _ _ => 3 },
    x := t3_one }

/-- Teacher output whose layer representations are constantly 1. -/
def tr_ex : TeacherOut := { layerResults := fun _ => t3_one, x := t3_one }

/-- A teacher config fixture that also carries values for attributes the
distiller overrides, to exercise precedence. -/
def teacherCfg_ex : List (String × PyV) :=
  [("encoder_layers", PyV.n 12), ("tr_layer_floor", PyV.n 7),
   ("extractor_mode", PyV.s "default")]

/-- A student schema fixture. -/
def schema_ex : List String :=
  ["encoder_layers", "tr_layer_floor", "extractor_mode", "enable_tr_layer",
   "type_of_tr_layer", "init_conv_layers", "init_encoder_layers",
   "proj_head_inter_dim", "proj_head_final_dim", "pred_layer_id",
   "teacher_task_agnostic"]

/-- A complete distiller override mapping fixture. -/
def distiller_ex : List (String × PyV) :=
  [("encoder_layers", PyV.n 2), ("enable_tr_layer", PyV.b true),
   ("type_of_tr_layer", PyV.s "fc1"), ("tr_layer_index", PyV.n 1),
   ("init_conv_layers", PyV.n 1), ("init_encoder_layers", PyV.n 2),
   ("pred_head_inter_dim", PyV.n 512), ("pred_head_final_dim", PyV.n 768),
   ("pred_layer_id", PyV.ns [4, 8, 12])]

/-- The distiller override mapping fixture with `pred_layer_id` omitted. -/
def distiller_missing : List (String × PyV) :=
  [("encoder_layers", PyV.n 2), ("enable_tr_layer", PyV.b true),
   ("type_of_tr_layer", PyV.s "fc1"), ("tr_layer_index", PyV.n 1),
   ("init_conv_layers", PyV.n 1), ("init_encoder_layers", PyV.n 2),
   ("pred_head_inter_dim", PyV.n 512), ("pred_head_final_dim", PyV.n 768)]

/-- A yaml config fixture whose learning-rate expression is not evaluable. -/
def cfg_bad_lr : YamlCfg :=
  { distiller := distiller_ex, train := { cfg_w1 with learning_rate := "5 ** e-4" } }

/-- A yaml config fixture whose distiller mapping omits `pred_layer_id`. -/
def cfg_missing_key : YamlCfg :=
  { distiller := distiller_missing, train := cfg_w1 }

/-- The student config the resolver fixture produces. -/
def resolved_ex : AttrMap :=
  match resolveStudentConfig schema_ex teacherCfg_ex emptyAttrMap distiller_ex true with
  | Except.ok m => m
  | Except.error _ => emptyAttrMap

/-- The init state the bad-learning-rate fixture produces. -/
def initState_bad_lr : InitState :=
  match init_model teacherCfg_ex true schema_ex emptyAttrMap cfg_bad_lr with
  | Except.ok st => st
  | Except.error _ =>
    { studentConfig := emptyAttrMap, studentConstructed := false, taskAgnostic := true }

/-! ## Helper lemmas -/

/-- The CTC section of `calculate_loss` never returns a value: every path
ends in an exception (a KeyError from target construction or the
AttributeError from `losses.append`). -/
theorem ctcSection_not_ok (K : Kernels) (cfg : TrainCfg) (sr : StudentOut)
    (tr : TeacherOut) (labels : List String) (evs : List Ev) (p : ℚ × List ℚ) :
    (ctcSection K cfg sr tr labels evs).2 ≠ Except.ok p := by
  unfold ctcSection
  by_cases hg : cfg.use_gt_for_ctc
  · simp only [hg, if_true]
    cases e : gt_tokens labels <;> simp
  · simp [hg]

/-- In task-agnostic mode the only event `calculate_loss` can emit is the
cosine computation. -/
theorem calculate_loss_events_ta (K : Kernels) (cfg : TrainCfg) (ids : List Nat)
    (sr : StudentOut) (tr : TeacherOut) (labels : List String) :
    (calculate_loss K cfg ids true sr tr labels).1
      = if 0 < cfg.cosine_weight then [Ev.cosineComputed] else [] := by
  unfold calculate_loss
  by_cases hw : 0 < cfg.cosine_weight <;> simp [hw]

/-- In task-agnostic mode `validation_step` emits exactly the events of its
`calculate_loss` call: the decode/metric block is skipped. -/
theorem validation_step_events_ta (K : Kernels) (cfg : TrainCfg) (ids : List Nat)
    (sr : StudentOut) (tr : TeacherOut) (labels : List String) :
    (validation_step K cfg ids true sr tr labels).1
      = (calculate_loss K cfg ids true sr tr labels).1 := by
  unfold validation_step
  cases hc : calculate_loss K cfg ids true sr tr labels with
  | mk evs res =>
    cases res with
    | error e => simp
    | ok p => cases p with | mk loss ls => simp

/-- In task-agnostic mode `test_step` emits exactly the events of its
`calculate_loss` call: the decode/metric block is skipped. -/
theorem test_step_events_ta (K : Kernels) (cfg : TrainCfg) (ids : List Nat)
    (sr : StudentOut) (tr : TeacherOut) (labels : List String) :
    (test_step K cfg ids true sr tr labels).1
      = (calculate_loss K cfg ids true sr tr labels).1 := by
  unfold test_step
  cases hc : calculate_loss K cfg ids true sr tr labels with
  | mk evs res =>
    cases res with
    | error e => simp
    | ok p => cases p with | mk loss ls => simp

/-- A label whose characters are all in the alphabet tokenizes. -/
theorem label_tokens_ok (cs : List Char)
    (h : ∀ c ∈ cs, (lookupChar c).isSome = true) :
    ∃ ts, label_tokens cs = Except.ok ts := by
  induction cs with
  | nil => exact ⟨[], rfl⟩
  | cons c cs ih =>
    obtain ⟨n, hn⟩ := Option.isSome_iff_exists.mp (h c (List.mem_cons_self c cs))
    obtain ⟨ts, hts⟩ := ih (fun x hx => h x (List.mem_cons_of_mem c hx))
    exact ⟨n :: ts, by simp [label_tokens, hn, hts, Except.map]⟩

/-- The character carried by a tokenization KeyError is indeed outside the
alphabet. -/
theorem label_tokens_error_none (cs : List Char) (c : Char)
    (h : label_tokens cs = Except.error c) : lookupChar c = none := by
  induction cs with
  | nil => simp [label_tokens] at h
  | cons a as ih =>
    unfold label_tokens at h
    cases ha : lookupChar a with
    | none => rw [ha] at h; cases h; exact ha
    | some n =>
      rw [ha] at h
      cases hts : label_tokens as with
      | error c2 =>
        rw [hts] at h
        simp [Except.map] at h
        subst h
        exact ih hts
      | ok ts => rw [hts] at h; simp [Except.map] at h

/-- A label containing a character outside the alphabet fails to tokenize. -/
theorem label_tokens_error_of_bad (cs : List Char) (c : Char) (hm : c ∈ cs)
    (hn : lookupChar c = none) : ∃ c2, label_tokens cs = Except.error c2 := by
  induction cs with
  | nil => cases hm
  | cons a as ih =>
    unfold label_tokens
    cases ha : lookupChar a with
    | none => exact ⟨a, rfl⟩
    | some n =>
      rcases List.mem_cons.mp hm with h1 | h2
      · subst h1; rw [hn] at ha; cases ha
      · obtain ⟨c2, hc2⟩ := ih h2
        exact ⟨c2, by simp [hc2, Except.map]⟩

/-- A batch whose labels are all alphabet-only yields a target. -/
theorem gt_tokens_ok_of_all (labels : List String)
    (h : ∀ l ∈ labels, ∀ c ∈ l.toList, (lookupChar c).isSome = true) :
    ∃ tss, gt_tokens labels = Except.ok tss := by
  induction labels with
  | nil => exact ⟨[], rfl⟩
  | cons l ls ih =>
    obtain ⟨ts, hts⟩ := label_tokens_ok l.toList (h l (List.mem_cons_self l ls))
    obtain ⟨tss, htss⟩ := ih (fun x hx => h x (List.mem_cons_of_mem l hx))
    have hts2 : label_tokens l.data = Except.ok ts := hts
    exact ⟨ts :: tss, by simp [gt_tokens, hts2, htss, Except.map]⟩

/-- The character carried by a batch-level KeyError is outside the
alphabet. -/
theorem gt_tokens_error_none (labels : List String) (c : Char)
    (h : gt_tokens labels = Except.error c) : lookupChar c = none := by
  induction labels with
  | nil => simp [gt_tokens] at h
  | cons l ls ih =>
    unfold gt_tokens at h
    cases hl : label_tokens l.toList with
    | error c2 => rw [hl] at h; cases h; exact label_tokens_error_none _ _ hl
    | ok ts =>
      rw [hl] at h
      cases hg : gt_tokens ls with
      | error c2 =>
        rw [hg] at h
        simp [Except.map] at h
        subst h
        exact ih hg
      | ok tss => rw [hg] at h; simp [Except.map] at h

/-- A batch with any out-of-alphabet character in any label raises. -/
theorem gt_tokens_error_of_bad (labels : List String) (l : String) (c : Char)
    (hl : l ∈ labels) (hc : c ∈ l.toList) (hn : lookupChar c = none) :
    ∃ c2, gt_tokens labels = Except.error c2 := by
  induction labels with
  | nil => cases hl
  | cons a as ih =>
    unfold gt_tokens
    cases ha : label_tokens a.toList with
    | error c2 => exact ⟨c2, rfl⟩
    | ok ts =>
      rcases List.mem_cons.mp hl with h1 | h2
      · subst h1
        obtain ⟨c2, hc2⟩ := label_tokens_error_of_bad _ _ hc hn
        rw [hc2] at ha; cases ha
      · obtain ⟨c2, hc2⟩ := ih h2
        exact ⟨c2, by simp [hc2, Except.map]⟩

/-- Tokenization preserves a label's character count. -/
theorem label_tokens_length (cs : List Char) (ts : List Nat)
    (h : label_tokens cs = Except.ok ts) : ts.length = cs.length := by
  induction cs generalizing ts with
  | nil => cases h; rfl
  | cons a as ih =>
    unfold label_tokens at h
    cases ha : lookupChar a with
    | none => rw [ha] at h; cases h
    | some n =>
      rw [ha] at h
      cases hts : label_tokens as with
      | error c2 => rw [hts] at h; simp [Except.map] at h
      | ok ts2 =>
        rw [hts] at h
        simp [Except.map] at h
        rw [← h]
        simp [ih ts2 hts]

/-- The recorded per-example target lengths are the label lengths. -/
theorem gt_tokens_lengths (labels : List String) (tss : List (List Nat))
    (h : gt_tokens labels = Except.ok tss) :
    tss.map List.length = labels.map String.length := by
  induction labels generalizing tss with
  | nil => cases h; rfl
  | cons l ls ih =>
    unfold gt_tokens at h
    cases hl : label_tokens l.toList with
    | error c2 => rw [hl] at h; cases h
    | ok ts =>
      rw [hl] at h
      cases hg : gt_tokens ls with
      | error c2 => rw [hg] at h; simp [Except.map] at h
      | ok tss2 =>
        rw [hg] at h
        simp [Except.map] at h
        rw [← h]
        simp [ih tss2 hg]
        exact label_tokens_length _ _ hl

/-! ## Claim theorems -/

/-- Claim C1 (code bug): the claim says that with the cosine weight at 0,
`calculate_loss` succeeds and logs exactly the detached per-layer regression
means. In the code, the disabled-cosine branch leaves `sim_layer_loss =
None`, and `losses = torch.add(rec_layer_loss, sim_layer_loss)` then raises
TypeError, in task-agnostic and in task-specific mode alike, even though the
per-layer regression means (here `[2, 2]`) were computed. -/
theorem c1_cosine_disabled_crash :
    (calculate_loss K0 cfg_w0 [0, 1] true sr_ex tr_ex []).2
      = Except.error Err.typeErrorAddNone
    ∧ (calculate_loss K0 cfg_w0 [0, 1] false sr_ex tr_ex ["CAT"]).2
      = Except.error Err.typeErrorAddNone
    ∧ rec_layer_loss sr_ex.projections (selectTeacherHiddens tr_ex [0, 1]) = [2, 2] := by
  refine ⟨by decide, by decide, ?_⟩
  norm_num [rec_layer_loss, recLayerLossAt, recElem, selectTeacherHiddens, sr_ex,
    tr_ex, t3_one, qSum, List.range_succ]

/-- Claim C2 (code bug): the claim says that in task-specific mode with
`pred_layer_id = [4, 8, 12]`, `use_gt_for_ctc = True` and two labeled
utterances, the losses sequence has length 4 with the CTC scalar appended.
In the code, `losses` is a `torch.Tensor` (the result of `torch.add`), which
has no `append` method, so after the ground-truth target (shown here) and
the CTC loss value are built, `losses.append(ctc_loss)` raises
AttributeError and no sequence is returned. -/
theorem c2_ctc_append_crash :
    gt_tokens ["CAT", "HELLO"] = Except.ok [[19, 7, 6], [11, 5, 15, 15, 8]]
    ∧ (calculate_loss K0 cfg_w1 [4, 8, 12] false sr_ex3 tr_ex ["CAT", "HELLO"]).2
      = Except.error Err.attributeErrorTensorAppend := by
  refine ⟨by decide, ?_⟩
  rw [calculate_loss, ctcSection,
    show gt_tokens ["CAT", "HELLO"] = Except.ok [[19, 7, 6], [11, 5, 15, 15, 8]] from by
      decide]
  norm_num [cfg_w1, cfg_w0]

/-- Claim C3: the total loss computed on line 229 equals the regression
scalar plus `cosine_weight` times the cosine scalar (the cosine scalar being
0 when the weight is not positive); with the weight at 0 it equals the
regression scalar `rec_loss` exactly; and whenever `calculate_loss` returns
at all, the total it returns is exactly this value. -/
theorem c3_total_loss_composition (K : Kernels) (cfg : TrainCfg)
    (pred_layer_id : List Nat) (sr : StudentOut) (tr : TeacherOut) :
    total_loss_val K cfg pred_layer_id sr tr
      = rec_loss sr.projections (selectTeacherHiddens tr pred_layer_id)
        + cfg.cosine_weight * (if 0 < cfg.cosine_weight then
            sim_loss K sr.projections (selectTeacherHiddens tr pred_layer_id) else 0)
    ∧ (cfg.cosine_weight = 0 →
        total_loss_val K cfg pred_layer_id sr tr
          = rec_loss sr.projections (selectTeacherHiddens tr pred_layer_id))
    ∧ (∀ (ta : Bool) (labels : List String) (t : ℚ) (ls : List ℚ),
        (calculate_loss K cfg pred_layer_id ta sr tr labels).2 = Except.ok (t, ls) →
        t = total_loss_val K cfg pred_layer_id sr tr) := by
  refine ⟨rfl, ?_, ?_⟩
  · intro h
    simp [total_loss_val, h]
  · intro ta labels t ls h
    unfold calculate_loss at h
    by_cases hw : 0 < cfg.cosine_weight
    · simp only [hw, if_true] at h
      cases ta
      · exact absurd h (ctcSection_not_ok K cfg sr tr labels _ _)
      · simp only [if_true] at h
        rw [Except.ok.injEq, Prod.mk.injEq] at h
        rw [← h.1, total_loss_val]
        simp [hw]
    · simp [hw] at h

/-- Witness for C3 at concrete inputs: with weight 0 the total equals the
regression scalar, and with weight 1 the returned total (1) is the composed
value. -/
theorem c3_total_loss_composition_witness :
    total_loss_val K0 cfg_w0 [0, 1] sr_ex tr_ex
      = rec_loss sr_ex.projections (selectTeacherHiddens tr_ex [0, 1])
    ∧ (1 : ℚ) = total_loss_val K0 cfg_w1 [0, 1] sr_ex tr_ex :=
  ⟨(c3_total_loss_composition K0 cfg_w0 [0, 1] sr_ex tr_ex).2.1 rfl,
   (c3_total_loss_composition K0 cfg_w1 [0, 1] sr_ex tr_ex).2.2 true [] 1 [1, 1] (by
     norm_num [calculate_loss, cfg_w1, cfg_w0, K0, sr_ex, tr_ex, t3_one, rec_loss,
       rec_layer_loss, recLayerLossAt, recElem, sim_loss, sim_layer_loss,
       simLayerLossAt, simElem, selectTeacherHiddens, qSum, List.range_succ])⟩

/-- Claim C4: ground-truth CTC target construction maps each character of
each label through the fixed alphabet — "CAT" tokenizes to `[19, 7, 6]` —
records one length per example, and concatenates across the batch, so a
batch of labels of lengths 3 and 5 yields a concatenated target of
length 8. -/
theorem c4_gt_target_construction :
    label_tokens ("CAT".toList) = Except.ok [19, 7, 6]
    ∧ (∀ (labels : List String) (tss : List (List Nat)),
        gt_tokens labels = Except.ok tss →
        tss.map List.length = labels.map String.length
        ∧ tss.flatten.length = (labels.map String.length).sum)
    ∧ gtTargetLen ["CAT", "HELLO"] = some 8 := by
  refine ⟨by decide, ?_, by decide⟩
  intro labels tss h
  have hmap := gt_tokens_lengths labels tss h
  refine ⟨hmap, ?_⟩
  rw [← hmap]
  induction tss with
  | nil => rfl
  | cons t ts ih => simp [ih]

/-- Witness for C4 at a concrete batch of lengths 3 and 5. -/
theorem c4_gt_target_construction_witness :
    ([[19, 7, 6], [11, 5, 15, 15, 8]] : List (List Nat)).map List.length
      = (["CAT", "HELLO"] : List String).map String.length
    ∧ ([[19, 7, 6], [11, 5, 15, 15, 8]] : List (List Nat)).flatten.length
      = ((["CAT", "HELLO"] : List String).map String.length).sum :=
  c4_gt_target_construction.2.1 ["CAT", "HELLO"] [[19, 7, 6], [11, 5, 15, 15, 8]]
    (by decide)

/-- Claim C5: whenever config resolution (teacher-derived copy first, then
`update_student_config`) succeeds, every attribute the override mapping
addresses holds exactly the override value — for any teacher config, schema
and base, so the teacher-derived value can never survive on these
attributes. -/
theorem c5_override_precedence (schema : List String) (teacherCfg : List (String × PyV))
    (base : AttrMap) (d : List (String × PyV)) (ta : Bool) (m : AttrMap)
    (h : resolveStudentConfig schema teacherCfg base d ta = Except.ok m) :
    m "encoder_layers" = dictGet d "encoder_layers"
    ∧ m "enable_tr_layer" = dictGet d "enable_tr_layer"
    ∧ m "type_of_tr_layer" = dictGet d "type_of_tr_layer"
    ∧ m "tr_layer_floor" = dictGet d "tr_layer_index"
    ∧ m "init_conv_layers" = dictGet d "init_conv_layers"
    ∧ m "init_encoder_layers" = dictGet d "init_encoder_layers"
    ∧ m "proj_head_inter_dim" = dictGet d "pred_head_inter_dim"
    ∧ m "proj_head_final_dim" = dictGet d "pred_head_final_dim"
    ∧ m "pred_layer_id" = dictGet d "pred_layer_id"
    ∧ m "teacher_task_agnostic" = some (PyV.b ta) := by
  unfold resolveStudentConfig update_student_config at h
  cases e1 : dictGet d "encoder_layers" <;> rw [e1] at h
  case none => exact absurd h (by simp)
  cases e2 : dictGet d "enable_tr_layer" <;> rw [e2] at h
  case none => exact absurd h (by simp)
  cases e3 : dictGet d "type_of_tr_layer" <;> rw [e3] at h
  case none => exact absurd h (by simp)
  cases e4 : dictGet d "tr_layer_index" <;> rw [e4] at h
  case none => exact absurd h (by simp)
  cases e5 : dictGet d "init_conv_layers" <;> rw [e5] at h
  case none => exact absurd h (by simp)
  cases e6 : dictGet d "init_encoder_layers" <;> rw [e6] at h
  case none => exact absurd h (by simp)
  cases e7 : dictGet d "pred_head_inter_dim" <;> rw [e7] at h
  case none => exact absurd h (by simp)
  cases e8 : dictGet d "pred_head_final_dim" <;> rw [e8] at h
  case none => exact absurd h (by simp)
  cases e9 : dictGet d "pred_layer_id" <;> rw [e9] at h
  case none => exact absurd h (by simp)
  rw [Except.ok.injEq] at h
  subst h
  refine ⟨?_, ?_, ?_, ?_, ?_, ?_, ?_, ?_, ?_, ?_⟩ <;>
    simp [setAttr, e1, e2, e3, e4, e5, e6, e7, e8, e9]

/-- Witness for C5: a concrete resolution in which the teacher config also
carries `encoder_layers` and `tr_layer_floor`; the resolved values are the
override values. -/
theorem c5_override_precedence_witness :
    resolveStudentConfig schema_ex teacherCfg_ex emptyAttrMap distiller_ex true
      = Except.ok resolved_ex
    ∧ (resolved_ex "encoder_layers" = dictGet distiller_ex "encoder_layers"
      ∧ resolved_ex "enable_tr_layer" = dictGet distiller_ex "enable_tr_layer"
      ∧ resolved_ex "type_of_tr_layer" = dictGet distiller_ex "type_of_tr_layer"
      ∧ resolved_ex "tr_layer_floor" = dictGet distiller_ex "tr_layer_index"
      ∧ resolved_ex "init_conv_layers" = dictGet distiller_ex "init_conv_layers"
      ∧ resolved_ex "init_encoder_layers" = dictGet distiller_ex "init_encoder_layers"
      ∧ resolved_ex "proj_head_inter_dim" = dictGet distiller_ex "pred_head_inter_dim"
      ∧ resolved_ex "proj_head_final_dim" = dictGet distiller_ex "pred_head_final_dim"
      ∧ resolved_ex "pred_layer_id" = dictGet distiller_ex "pred_layer_id"
      ∧ resolved_ex "teacher_task_agnostic" = some (PyV.b true)) :=
  ⟨rfl, c5_override_precedence schema_ex teacherCfg_ex emptyAttrMap distiller_ex true
    resolved_ex rfl⟩

/-- Claim C6 (code bug): the claim says the test step reports the scalar
total loss. In the code, `test_step` binds the whole pair returned by
`calculate_loss` without unpacking and reports `sum(losses)`, which
broadcasts the scalar total over the per-layer tensor: on a concrete batch
it reports the vector `[2, 2]` while the `calculate_loss` total that
`training_step` returns is the scalar 1. -/
theorem c6_test_step_not_scalar_total :
    (test_step K0 cfg_w1 [0, 1] true sr_ex tr_ex []).2 = Except.ok (PyNum.vector [2, 2])
    ∧ (training_step K0 cfg_w1 [0, 1] true sr_ex tr_ex []).2 = Except.ok 1
    ∧ PyNum.vector [2, 2] ≠ PyNum.scalar 1 := by
  refine ⟨?_, ?_, by decide⟩
  · norm_num [test_step, pyTupleSum, pyAdd, calculate_loss, cfg_w1, cfg_w0, K0, sr_ex,
      tr_ex, t3_one, rec_loss, rec_layer_loss, recLayerLossAt, recElem, sim_loss,
      sim_layer_loss, simLayerLossAt, simElem, selectTeacherHiddens, qSum, List.range_succ]
  · norm_num [training_step, calculate_loss, cfg_w1, cfg_w0, K0, sr_ex,
      tr_ex, t3_one, rec_loss, rec_layer_loss, recLayerLossAt, recElem, sim_loss,
      sim_layer_loss, simLayerLossAt, simElem, selectTeacherHiddens, qSum, List.range_succ]

/-- Claim C7 (amended): the init phase never evaluates the learning-rate
expression — its outcome is the same for any two expression strings — and a
failing evaluation surfaces exactly when `configure_optimizers` runs, as its
first action. -/
theorem c7_lr_eval_in_configure_optimizers (teacherCfg : List (String × PyV))
    (ta : Bool) (schema : List String) (base : AttrMap) (cfg : YamlCfg)
    (lr1 lr2 : String) (evalExpr : String → Option ℚ) (tb : Nat) :
    init_model teacherCfg ta schema base
        { cfg with train := { cfg.train with learning_rate := lr1 } }
      = init_model teacherCfg ta schema base
        { cfg with train := { cfg.train with learning_rate := lr2 } }
    ∧ (evalExpr cfg.train.learning_rate = none →
        configure_optimizers evalExpr cfg.train tb
          = Except.error ("eval failed: " ++ cfg.train.learning_rate)) := by
  refine ⟨rfl, ?_⟩
  intro h
  simp [configure_optimizers, h]

/-- Witness for C7 (amended claim) at a concrete config whose learning-rate
expression fails to evaluate. -/
theorem c7_lr_eval_witness :
    configure_optimizers (fun _ => none) cfg_bad_lr.train 10
      = Except.error ("eval failed: " ++ cfg_bad_lr.train.learning_rate) :=
  (c7_lr_eval_in_configure_optimizers teacherCfg_ex true schema_ex emptyAttrMap
    cfg_bad_lr "a" "b" (fun _ => none) 10).2 rfl

/-- Counterexample to C7 as stated: for a concrete config whose
learning-rate expression fails to evaluate (the evaluator returns `none` on
it), startup succeeds and constructs the student model; the failure only
occurs later, in `configure_optimizers`. -/
theorem c7_counterexample :
    init_model teacherCfg_ex true schema_ex emptyAttrMap cfg_bad_lr
      = Except.ok initState_bad_lr
    ∧ initState_bad_lr.studentConstructed = true
    ∧ configure_optimizers (fun _ => none) cfg_bad_lr.train 10
      = Except.error ("eval failed: " ++ cfg_bad_lr.train.learning_rate) :=
  ⟨rfl, rfl, rfl⟩

/-- Claim C8: if the distiller override mapping omits a required key (the
first missing one being `k`), `__init__` raises `KeyError: k` from
`update_student_config` and the student model is never constructed. -/
theorem c8_missing_key_fails (teacherCfg : List (String × PyV)) (ta : Bool)
    (schema : List String) (base : AttrMap) (cfg : YamlCfg) (k : String)
    (h : firstMissingKey cfg.distiller = some k) :
    init_model teacherCfg ta schema base cfg = Except.error ("KeyError: " ++ k) := by
  unfold firstMissingKey requiredDistillerKeys at h
  unfold init_model update_student_config
  cases e1 : dictGet cfg.distiller "encoder_layers" <;> simp [List.find?, e1] at h ⊢
  case none => subst h; rfl
  cases e2 : dictGet cfg.distiller "enable_tr_layer" <;> simp [List.find?, e2] at h ⊢
  case none => subst h; rfl
  cases e3 : dictGet cfg.distiller "type_of_tr_layer" <;> simp [List.find?, e3] at h ⊢
  case none => subst h; rfl
  cases e4 : dictGet cfg.distiller "tr_layer_index" <;> simp [List.find?, e4] at h ⊢
  case none => subst h; rfl
  cases e5 : dictGet cfg.distiller "init_conv_layers" <;> simp [List.find?, e5] at h ⊢
  case none => subst h; rfl
  cases e6 : dictGet cfg.distiller "init_encoder_layers" <;> simp [List.find?, e6] at h ⊢
  case none => subst h; rfl
  cases e7 : dictGet cfg.distiller "pred_head_inter_dim" <;> simp [List.find?, e7] at h ⊢
  case none => subst h; rfl
  cases e8 : dictGet cfg.distiller "pred_head_final_dim" <;> simp [List.find?, e8] at h ⊢
  case none => subst h; rfl
  cases e9 : dictGet cfg.distiller "pred_layer_id" <;> simp [List.find?, e9] at h ⊢
  case none => subst h; rfl

/-- Witness for C8 at a concrete override mapping omitting
`pred_layer_id`. -/
theorem c8_missing_key_fails_witness :
    firstMissingKey cfg_missing_key.distiller = some "pred_layer_id"
    ∧ init_model teacherCfg_ex true schema_ex emptyAttrMap cfg_missing_key
      = Except.error ("KeyError: " ++ "pred_layer_id") :=
  ⟨by decide, c8_missing_key_fails teacherCfg_ex true schema_ex emptyAttrMap
    cfg_missing_key "pred_layer_id" (by decide)⟩

/-- Claim C9: with `task_agnostic` true, no CTC-related, decode or
metric-accumulation computation is performed by `calculate_loss`,
`validation_step` or `test_step`: every event any of them emits is the
cosine computation, never a task-specific one. -/
theorem c9_task_agnostic_gating (K : Kernels) (cfg : TrainCfg) (ids : List Nat)
    (sr : StudentOut) (tr : TeacherOut) (labels : List String) :
    ((calculate_loss K cfg ids true sr tr labels).1.all (fun e => !taskSpecificEv e)) = true
    ∧ ((validation_step K cfg ids true sr tr labels).1.all (fun e => !taskSpecificEv e)) = true
    ∧ ((test_step K cfg ids true sr tr labels).1.all (fun e => !taskSpecificEv e)) = true := by
  have hall : ((calculate_loss K cfg ids true sr tr labels).1.all
      (fun e => !taskSpecificEv e)) = true := by
    rw [calculate_loss_events_ta]
    by_cases hw : 0 < cfg.cosine_weight <;> simp [hw, taskSpecificEv]
  exact ⟨hall, by rw [validation_step_events_ta]; exact hall,
    by rw [test_step_events_ta]; exact hall⟩

/-- Claim C10: ground-truth CTC target construction is total exactly on
batches whose labels use only alphabet characters: a batch of alphabet-only
labels yields a target, any out-of-alphabet character (for example a
lowercase letter) makes the per-character lookup raise KeyError, and inside
`calculate_loss` that KeyError propagates out of the task-specific
branch. -/
theorem c10_gt_lookup_partiality (labels : List String) :
    ((∀ l ∈ labels, ∀ c ∈ l.toList, (lookupChar c).isSome = true) →
      gtOk (gt_tokens labels) = true)
    ∧ (∀ (l : String) (c : Char), l ∈ labels → c ∈ l.toList →
        lookupChar c = none → gtBadCharError (gt_tokens labels) = true)
    ∧ (∀ (K : Kernels) (cfg : TrainCfg) (ids : List Nat) (sr : StudentOut)
        (tr : TeacherOut) (c : Char),
        0 < cfg.cosine_weight → cfg.use_gt_for_ctc = true →
        gt_tokens labels = Except.error c →
        (calculate_loss K cfg ids false sr tr labels).2
          = Except.error (Err.keyError c)) := by
  refine ⟨?_, ?_, ?_⟩
  · intro h
    obtain ⟨tss, htss⟩ := gt_tokens_ok_of_all labels h
    simp [gtOk, htss]
  · intro l c hl hc hn
    obtain ⟨c2, hc2⟩ := gt_tokens_error_of_bad labels l c hl hc hn
    simp [gtBadCharError, hc2, gt_tokens_error_none labels c2 hc2]
  · intro K cfg ids sr tr c hw hgt herr
    unfold calculate_loss ctcSection
    simp [hw, hgt, herr]

/-- Witness for C10: the all-uppercase batch `["CAT"]` tokenizes, while the
lowercase batch `["cat"]` raises a KeyError on an out-of-alphabet
character. -/
theorem c10_gt_lookup_partiality_witness :
    gtOk (gt_tokens ["CAT"]) = true
    ∧ gtBadCharError (gt_tokens ["cat"]) = true :=
  ⟨(c10_gt_lookup_partiality ["CAT"]).1 (by decide),
   (c10_gt_lookup_partiality ["cat"]).2.1 "cat" (Char.ofNat 99) (by decide) (by decide)
     (by decide)⟩

end W2V2Distil
